import Mathlib

/-!
Verification of the market-data core of the crypto-dashboard repository.

The Python sources are shallowly embedded as Lean definitions:

* `app/config.py` — the configuration constants (`COINGECKO_API_URL`,
  `CACHE_DURATION`, `AVAILABLE_CRYPTOCURRENCIES`).
* `app/main.py` — `CryptoAPI.get_crypto_data`, `CryptoAPI.get_historical_data`,
  `format_currency`, and the parts of `main` that consume the fetched data
  (the symbol table `available_coins`, the `coin_ids` list comprehension,
  the `data.get(field, 0)` reads, and the `if crypto_data:` branch).

Numeric JSON values are modelled as rationals (`ℚ`); Python exceptions are
modelled with `Except`: a function that catches every exception and returns a
default is embedded as a total function, and the network is passed in as an
explicit `HttpRequest → Except String _` argument so that the requests a call
issues can be stated and counted.  The staleness-bounded cache of the design
document is not part of the files under `app/` (only its `CACHE_DURATION`
constant is); it is modelled from the specification text, clearly marked below.
-/

namespace CryptoDash

/-- From `app/config.py`: `COINGECKO_API_URL = "https://api.coingecko.com/api/v3"`. -/
def COINGECKO_API_URL : String := "https://api.coingecko.com/api/v3"

/-- From `app/config.py`: `CACHE_DURATION = 60  # segundos`. -/
def CACHE_DURATION : Nat := 60

/-- From `app/config.py`: the `AVAILABLE_CRYPTOCURRENCIES` dict, an
identifier → display-name mapping, embedded as an association list in
source order. -/
def AVAILABLE_CRYPTOCURRENCIES : List (String × String) :=
  [("bitcoin", "Bitcoin"),
   ("ethereum", "Ethereum"),
   ("cardano", "Cardano"),
   ("polkadot", "Polkadot"),
   ("chainlink", "Chainlink"),
   ("solana", "Solana"),
   ("avalanche-2", "Avalanche"),
   ("polygon", "Polygon")]

/-- One entry of the upstream `/simple/price` JSON response: the per-coin
object `\x7busd, usd_24h_change, usd_market_cap, usd_24h_vol\x7d`, each field
optional because the upstream may omit it. -/
structure CoinFields where
  usd : Option ℚ
  usd_24h_change : Option ℚ
  usd_market_cap : Option ℚ
  usd_24h_vol : Option ℚ
deriving DecidableEq, Repr

/-- The parsed `/simple/price` response body: a JSON object mapping upstream
identifier → `CoinFields`, embedded as an association list in source order. -/
abbrev PriceResponse := List (String × CoinFields)

/-- An outbound HTTP request as `aiohttp`/`requests` receive it: method, URL,
query parameters, and the explicitly configured timeout (`none` when the call
site passes no `timeout=` argument, so the library default applies). -/
structure HttpRequest where
  method : String
  url : String
  params : List (String × String)
  timeout : Option Nat
deriving DecidableEq, Repr

/-- From `app/main.py` line 26: `self.base_url = "https://api.coingecko.com/api/v3"`. -/
def base_url : String := "https://api.coingecko.com/api/v3"

/-- From `app/main.py` lines 30-38: the request `CryptoAPI.get_crypto_data`
builds — `url = f"..."` with `/simple/price` appended to `base_url`, and the
`params` dict in source order, `ids` being `",".join(coins)`.  The call site
(line 42) passes no `timeout=` argument, hence `timeout := none`. -/
def mkPriceRequest (coins : List String) : HttpRequest :=
  { method := "GET",
    url := base_url ++ "/simple/price",
    params := [("ids", String.intercalate "," coins),
               ("vs_currencies", "usd"),
               ("include_24hr_change", "true"),
               ("include_market_cap", "true"),
               ("include_24hr_vol", "true")],
    timeout := none }

/-- Result of one `get_crypto_data` call: the mapping returned to the caller
together with the list of HTTP requests the call issued. -/
structure FetchResult where
  mapping : PriceResponse
  requests : List HttpRequest
deriving DecidableEq, Repr

/-- From `app/main.py` lines 28-46, `CryptoAPI.get_crypto_data`: build the
`/simple/price` request, issue it once, and return the parsed JSON body
unchanged; any exception (network error, bad status, malformed body, timeout)
is caught by the bare `except Exception`, reported via `st.error`, and the
function returns the empty dict `\x7b\x7d`.  The network is an explicit
argument `net`; `.error` covers every exception the `try` block can raise. -/
def get_crypto_data (coins : List String)
    (net : HttpRequest → Except String PriceResponse) : FetchResult :=
  let req := mkPriceRequest coins
  match net req with
  | .ok body => ⟨body, [req]⟩
  | .error _ => ⟨[], [req]⟩

/-- From `app/main.py` line 195: `if crypto_data:` — the caller renders the
data page exactly when the returned dict is non-empty (Python dict truthiness). -/
def main_shows_data (crypto_data : PriceResponse) : Bool :=
  !crypto_data.isEmpty

/-- The empty per-coin JSON object `\x7b\x7d`, used by `main` as the default in
`data = crypto_data.get(coin_id, \x7b\x7d)` (line 203). -/
def emptyCoinFields : CoinFields :=
  { usd := none, usd_24h_change := none, usd_market_cap := none, usd_24h_vol := none }

/-- From `app/main.py` line 203: `data = crypto_data.get(coin_id, \x7b\x7d)`. -/
def coinData (crypto_data : PriceResponse) (coin_id : String) : CoinFields :=
  (crypto_data.lookup coin_id).getD emptyCoinFields

/-- The four numeric values `main` renders for one coin. -/
structure AssetView where
  price : ℚ
  change_24h : ℚ
  market_cap : ℚ
  volume_24h : ℚ
deriving DecidableEq, Repr

/-- From `app/main.py` lines 206-207 and 255-258: every numeric field is read
with `data.get(field, 0)`, defaulting to `0` when the upstream omitted it. -/
def viewOf (data : CoinFields) : AssetView :=
  { price := data.usd.getD 0,
    change_24h := data.usd_24h_change.getD 0,
    market_cap := data.usd_market_cap.getD 0,
    volume_24h := data.usd_24h_vol.getD 0 }

/-- From `app/main.py` lines 152-158: the `available_coins` dict of `main`,
display name → upstream identifier, embedded in source order. -/
def available_coins : List (String × String) :=
  [("Bitcoin", "bitcoin"),
   ("Ethereum", "ethereum"),
   ("Cardano", "cardano"),
   ("Polkadot", "polkadot"),
   ("Chainlink", "chainlink")]

/-- From `app/main.py` line 183: `coin_ids = [available_coins[coin] for coin
in selected_coins]` — direct dict indexing; a symbol absent from the table
raises `KeyError`, modelled as `none`. -/
def coin_ids (selected_coins : List String) : Option (List String) :=
  selected_coins.mapM (fun coin => available_coins.lookup coin)

/-- Lowercase a string character by character (the deterministic lowercase
transform of the specification; extensionally Python's `str.lower` on ASCII). -/
def lowerStr (s : String) : String := ⟨s.data.map Char.toLower⟩

/-- Stated from the specification's words, for comparison with `coin_ids`
(§4.1: table lookup with a lowercase fallback for symbols absent from the
table).  This is the mapping the claim asserts, not code of the repository. -/
def specSymbolToId (s : String) : String :=
  (available_coins.lookup s).getD (lowerStr s)

/-- The parsed `/coins/<id>/market_chart` response body: the `prices` and
`total_volumes` arrays, each a list of `[timestamp_ms, value]` pairs. -/
structure MarketChart where
  prices : List (Int × ℚ)
  total_volumes : List (Int × ℚ)
deriving DecidableEq, Repr

/-- A pandas DataFrame, abstracted to its column names and its rows of
numeric values (the `pd.to_datetime` relabelling of the millisecond
timestamps is kept as the raw millisecond value). -/
structure DataFrame where
  columns : List String
  rows : List (List ℚ)
deriving DecidableEq, Repr

/-- `pd.DataFrame()`: the empty frame, no columns and no rows. -/
def emptyDataFrame : DataFrame := { columns := [], rows := [] }

/-- From `app/main.py` lines 48-64, `CryptoAPI.get_historical_data`: on a
fully successful request the frame has columns `timestamp`, `price` (from
`data['prices']`) and `volume` (from `[vol[1] for vol in
data['total_volumes']]`); any exception in the `try` block — the request,
`response.json()`, the key accesses, or the `df['volume']` assignment (which
raises when the list length differs from the frame length) — is caught and
`pd.DataFrame()` is returned.  The input is the outcome of
`requests.get(...)` and `response.json()` combined: `.error` for every
exception raised before the frame is built. -/
def get_historical_data (resp : Except String MarketChart) : DataFrame :=
  match resp with
  | .error _ => emptyDataFrame
  | .ok data =>
    if data.total_volumes.length = data.prices.length then
      { columns := ["timestamp", "price", "volume"],
        rows := (data.prices.zip data.total_volumes).map
          (fun pv => [(pv.1.1 : ℚ), pv.1.2, pv.2.2]) }
    else emptyDataFrame

/-- Python's `f"\x7bq:.2f\x7d"` on a rational: round to hundredths and print
with exactly two digits after the decimal point (the sign first). -/
def fmt2 (q : ℚ) : String :=
  let n : ℤ := ⌊q * 100 + 1 / 2⌋
  let a : ℕ := n.natAbs
  let r : ℕ := a % 100
  (if n < 0 then "-" else "") ++ toString (a / 100) ++ "." ++
    (if r < 10 then "0" else "") ++ toString r

/-- From `app/main.py` lines 132-141, `format_currency`: threshold ladder
`>= 1e9` → B, `elif >= 1e6` → M, `elif >= 1e3` → K, else plain, always
`$`-prefixed with two decimals. -/
def format_currency (value : ℚ) : String :=
  if value ≥ 1000000000 then "$" ++ fmt2 (value / 1000000000) ++ "B"
  else if value ≥ 1000000 then "$" ++ fmt2 (value / 1000000) ++ "M"
  else if value ≥ 1000 then "$" ++ fmt2 (value / 1000) ++ "K"
  else "$" ++ fmt2 value

/-- Modelled from the spec: the normalized `AssetRecord` of §3 — four numeric
fields plus the retrieval timestamp.  The cache component that stores these
is not among the files under `app/` (only its `CACHE_DURATION` constant is
declared there), so it is modelled from the specification text. -/
structure AssetRecord where
  price : ℚ
  change_24h : ℚ
  market_cap : ℚ
  volume_24h : ℚ
  fetched_at : Nat
deriving DecidableEq, Repr

/-- A fetch result as the cache stores it: AssetSymbol → AssetRecord. -/
abbrev AssetMapping := List (String × AssetRecord)

/-- Insert a string into a sorted list, keeping it sorted. -/
def insertSorted (s : String) : List String → List String
  | [] => [s]
  | t :: ts => if s ≤ t then s :: t :: ts else t :: insertSorted s ts

/-- Modelled from the spec: the canonical request key of §3 — the sorted,
deduplicated set of requested AssetSymbols. -/
def canonKey (symbols : List String) : List String :=
  symbols.dedup.foldr insertSorted []

/-- Modelled from the spec: the cache state of §4.2 — one entry per distinct
canonical symbol-set key, holding the stored mapping and its `fetched_at`
timestamp. -/
abbrev CacheState := List (List String × AssetMapping × Nat)

/-- Modelled from the spec (§4.2): a key's entry is `FRESH` when its age is
below the TTL (`CACHE_DURATION`, default 60 seconds); return its stored
mapping in that case, `none` on a stale or absent entry. -/
def cacheFreshEntry (c : CacheState) (now : Nat) (key : List String) :
    Option AssetMapping :=
  match c.lookup key with
  | some (m, t) => if now < t + CACHE_DURATION then some m else none
  | none => none

/-- Modelled from the spec (§4.2), `get`: on a `FRESH` entry for the exact
symbol set, return the stored mapping without contacting the Fetcher;
otherwise invoke the Fetcher once — on success store the result as a new
`FRESH` entry replacing any prior entry for that key and return it, on
failure propagate the error and leave the cache unchanged
(`serveStaleOnError` is at its default, false).  The third component counts
the upstream requests the call issued (0 on a hit, 1 on a miss). -/
def cacheGet (c : CacheState) (now : Nat) (symbols : List String)
    (fetch : List String → Except String AssetMapping) :
    Except String AssetMapping × CacheState × Nat :=
  match cacheFreshEntry c now (canonKey symbols) with
  | some m => (.ok m, c, 0)
  | none =>
    match fetch symbols with
    | .ok m =>
      (.ok m, (canonKey symbols, m, now) :: c.eraseP (fun e => e.1 == canonKey symbols), 1)
    | .error e => (.error e, c, 1)

/-- The concrete per-coin record of the specification's worked example:
`usd = 50000`, `usd_24h_change = 2.5`, `usd_market_cap = 1e12`,
`usd_24h_vol = 3e10`. -/
def fieldsBTC : CoinFields :=
  { usd := some 50000, usd_24h_change := some (5 / 2),
    usd_market_cap := some 1000000000000, usd_24h_vol := some 30000000000 }

/-- The upstream response of the specification's worked example, keyed by the
upstream identifier `bitcoin`. -/
def respBTC : PriceResponse := [("bitcoin", fieldsBTC)]

/-- A concrete stored record for exercising the cache model. -/
def recBTC : AssetRecord :=
  { price := 1, change_24h := 2, market_cap := 3, volume_24h := 4, fetched_at := 0 }

/-- A concrete fetched mapping for exercising the cache model. -/
def mapBTC : AssetMapping := [("BTC", recBTC)]

/-- A fetcher that always succeeds with `mapBTC`. -/
def fetchBTC : List String → Except String AssetMapping := fun _ => .ok mapBTC

/-- A concrete `market_chart` response for exercising `get_historical_data`. -/
def chartEx : MarketChart :=
  { prices := [(0, 100), (60000, 110)], total_volumes := [(0, 5), (60000, 6)] }

/-- Any single `cacheGet` call issues at most one upstream request. -/
theorem cacheGet_count_le_one (c : CacheState) (now : Nat) (S : List String)
    (fetch : List String → Except String AssetMapping) :
    (cacheGet c now S fetch).2.2 ≤ 1 := by
  unfold cacheGet
  cases cacheFreshEntry c now (canonKey S) with
  | none => cases fetch S <;> simp
  | some m => simp

/-- Claim C2 counterexample: a failing fetch does not raise a `FetchError` to
the caller — `get_crypto_data` returns the empty mapping instead, at the
concrete input `coins = ["bitcoin"]` with a network that raises. -/
theorem get_crypto_data_error_returns_empty_cex :
    get_crypto_data ["bitcoin"] (fun _ => .error "network error") =
      ⟨[], [mkPriceRequest ["bitcoin"]]⟩ := rfl

/-- Claim C2 (amended): every failing fetch is caught inside
`CryptoAPI.get_crypto_data` by the bare `except Exception`; the call still
issues its single request, reports the error via `st.error`, and returns the
empty mapping to the caller — no exception propagates. -/
theorem get_crypto_data_error_swallowed (coins : List String)
    (net : HttpRequest → Except String PriceResponse) (e : String)
    (h : net (mkPriceRequest coins) = .error e) :
    get_crypto_data coins net = ⟨[], [mkPriceRequest coins]⟩ := by
  simp [get_crypto_data, h]

/-- Witness for `get_crypto_data_error_swallowed` at a concrete timeout. -/
theorem get_crypto_data_error_swallowed_witness :
    (fun _ : HttpRequest => (Except.error "timed out" : Except String PriceResponse))
        (mkPriceRequest ["bitcoin"]) = .error "timed out" ∧
    get_crypto_data ["bitcoin"] (fun _ => .error "timed out") =
      ⟨[], [mkPriceRequest ["bitcoin"]]⟩ :=
  ⟨rfl, get_crypto_data_error_swallowed ["bitcoin"] _ "timed out" rfl⟩

/-- Claim C3 counterexample: for the specification's worked example response
and requested identifier list `["bitcoin"]`, the result of
`get_crypto_data` carries no key `"BTC"` — the mapping is keyed by upstream
identifier, not by the user-facing symbol. -/
theorem get_crypto_data_not_symbol_keyed_cex :
    (get_crypto_data ["bitcoin"] (fun _ => .ok respBTC)).mapping.lookup "BTC" = none := by
  decide

/-- Claim C3 (amended): on success `get_crypto_data` returns the parsed
upstream response unchanged, keyed by upstream identifier; the caller
(`main`) reads the four numeric fields of each entry with
`data.get(field, 0)`.  For the worked example the entry under `"bitcoin"`
renders as price 50000, change 2.5, market cap 1e12, volume 3e10. -/
theorem get_crypto_data_success_identity :
    (∀ (coins : List String) (net : HttpRequest → Except String PriceResponse)
        (body : PriceResponse), net (mkPriceRequest coins) = .ok body →
        (get_crypto_data coins net).mapping = body) ∧
    (get_crypto_data ["bitcoin"] (fun _ => .ok respBTC)).mapping.lookup "bitcoin" =
      some fieldsBTC ∧
    viewOf fieldsBTC =
      { price := 50000, change_24h := 5 / 2,
        market_cap := 1000000000000, volume_24h := 30000000000 } := by
  refine ⟨?_, rfl, rfl⟩
  intro coins net body h
  simp [get_crypto_data, h]

/-- Witness for `get_crypto_data_success_identity` at the worked example. -/
theorem get_crypto_data_success_identity_witness :
    (fun _ : HttpRequest => (Except.ok respBTC : Except String PriceResponse))
        (mkPriceRequest ["bitcoin"]) = .ok respBTC ∧
    (get_crypto_data ["bitcoin"] (fun _ => .ok respBTC)).mapping = respBTC :=
  ⟨rfl, get_crypto_data_success_identity.1 ["bitcoin"] _ respBTC rfl⟩

/-- Claim C4: on a successful upstream call whose body omits a requested
identifier, the returned mapping simply lacks that key, the call raises no
error (the embedding is total), and `main`'s `crypto_data.get(coin_id, {})`
read renders the four fields as 0 for the missing coin. -/
theorem get_crypto_data_missing_id_omitted (coins : List String)
    (net : HttpRequest → Except String PriceResponse) (body : PriceResponse)
    (id : String) (hok : net (mkPriceRequest coins) = .ok body)
    (hmiss : body.lookup id = none) :
    (get_crypto_data coins net).mapping.lookup id = none ∧
    viewOf (coinData (get_crypto_data coins net).mapping id) =
      { price := 0, change_24h := 0, market_cap := 0, volume_24h := 0 } := by
  have hbody : (get_crypto_data coins net).mapping = body := by
    simp [get_crypto_data, hok]
  rw [hbody]
  refine ⟨hmiss, ?_⟩
  rw [coinData, hmiss]
  rfl

/-- Witness for `get_crypto_data_missing_id_omitted`: `ethereum` requested
but absent from the worked-example response. -/
theorem get_crypto_data_missing_id_omitted_witness :
    (fun _ : HttpRequest => (Except.ok respBTC : Except String PriceResponse))
        (mkPriceRequest ["bitcoin", "ethereum"]) = .ok respBTC ∧
    respBTC.lookup "ethereum" = none ∧
    (get_crypto_data ["bitcoin", "ethereum"] (fun _ => .ok respBTC)).mapping.lookup
        "ethereum" = none :=
  ⟨rfl, by decide,
    (get_crypto_data_missing_id_omitted ["bitcoin", "ethereum"] _ respBTC "ethereum"
      rfl (by decide)).1⟩

/-- Claim C5: every `get_crypto_data` call issues exactly the single GET
request to `base_url ++ "/simple/price"` whose query parameters are `ids`
(the comma-joined identifiers), `vs_currencies=usd`,
`include_24hr_change=true`, `include_market_cap=true` and
`include_24hr_vol=true`. -/
theorem get_crypto_data_single_request_shape (coins : List String)
    (net : HttpRequest → Except String PriceResponse) :
    (get_crypto_data coins net).requests = [mkPriceRequest coins] ∧
    (mkPriceRequest coins).method = "GET" ∧
    (mkPriceRequest coins).url = base_url ++ "/simple/price" ∧
    (mkPriceRequest coins).params =
      [("ids", String.intercalate "," coins),
       ("vs_currencies", "usd"),
       ("include_24hr_change", "true"),
       ("include_market_cap", "true"),
       ("include_24hr_vol", "true")] := by
  refine ⟨?_, rfl, rfl, rfl⟩
  cases h : net (mkPriceRequest coins) <;> simp [get_crypto_data, h]

/-- Claim C6 counterexample: the request built by `get_crypto_data` carries
no 10-second timeout — the call site passes no `timeout=` argument at all. -/
theorem mkPriceRequest_no_ten_second_timeout_cex :
    ¬ (mkPriceRequest ["bitcoin"]).timeout = some 10 := by
  decide

/-- Claim C6 (amended): every `get_crypto_data` call performs exactly one
outbound HTTP request with no retries; that request configures no explicit
timeout (the library default applies), and when the request raises — a
timeout included — the exception is caught and the empty mapping returned. -/
theorem get_crypto_data_one_request_no_timeout (coins : List String)
    (net : HttpRequest → Except String PriceResponse) :
    (get_crypto_data coins net).requests.length = 1 ∧
    (∀ r ∈ (get_crypto_data coins net).requests, r.timeout = none) ∧
    (∀ e, net (mkPriceRequest coins) = .error e →
      (get_crypto_data coins net).mapping = []) := by
  refine ⟨?_, ?_, ?_⟩
  · cases h : net (mkPriceRequest coins) <;> simp [get_crypto_data, h]
  · intro r hr
    have hreq : (get_crypto_data coins net).requests = [mkPriceRequest coins] := by
      cases h : net (mkPriceRequest coins) <;> simp [get_crypto_data, h]
    rw [hreq] at hr
    have hr1 : r = mkPriceRequest coins := by simpa using hr
    rw [hr1]
    rfl
  · intro e he
    simp [get_crypto_data, he]

/-- Witness for `get_crypto_data_one_request_no_timeout` at a concrete
timed-out call. -/
theorem get_crypto_data_one_request_no_timeout_witness :
    (get_crypto_data ["bitcoin"] (fun _ => .error "timed out")).requests.length = 1 ∧
    (mkPriceRequest ["bitcoin"]).timeout = none ∧
    (get_crypto_data ["bitcoin"] (fun _ => .error "timed out")).mapping = [] := by
  obtain ⟨h1, h2, h3⟩ :=
    get_crypto_data_one_request_no_timeout ["bitcoin"] (fun _ => .error "timed out")
  exact ⟨h1, h2 (mkPriceRequest ["bitcoin"])
    (show mkPriceRequest ["bitcoin"] ∈ [mkPriceRequest ["bitcoin"]] from .head _),
    h3 "timed out" rfl⟩

/-- Claim C7 counterexample: for the symbol `Solana`, absent from `main`'s
`available_coins` table, the list comprehension `[available_coins[coin] ...]`
raises `KeyError` (`none` in the embedding) — whereas the claimed mapping
would have produced the lowercase identifier `solana`.  There is no
lowercase fallback in the code. -/
theorem coin_ids_no_lowercase_fallback_cex :
    coin_ids ["Solana"] = none ∧ ["Solana"].map specSymbolToId = ["solana"] := by
  exact ⟨by decide, by decide⟩

/-- Claim C7 (amended): every selected symbol is mapped by direct indexing
into the static `available_coins` table; when every selected symbol is a key
of the table, the identifiers agree with the specification's
table-then-lowercase mapping (each table value is the lowercase of its key),
and a symbol absent from the table raises `KeyError` instead of falling back
to lowercase. -/
theorem coin_ids_table_only (selected : List String)
    (h : ∀ s ∈ selected, (available_coins.lookup s).isSome) :
    coin_ids selected = some (selected.map specSymbolToId) := by
  induction selected with
  | nil => rfl
  | cons a l ih =>
    obtain ⟨v, hv⟩ := Option.isSome_iff_exists.mp (h a (by simp))
    have hl := ih (fun s hs => h s (by simp [hs]))
    simp only [coin_ids] at hl ⊢
    rw [List.mapM_cons, hv, hl]
    simp [specSymbolToId, hv]

/-- Witness for `coin_ids_table_only` at two in-table symbols. -/
theorem coin_ids_table_only_witness :
    (∀ s ∈ (["Bitcoin", "Ethereum"] : List String),
      (available_coins.lookup s).isSome) ∧
    coin_ids ["Bitcoin", "Ethereum"] =
      some ((["Bitcoin", "Ethereum"] : List String).map specSymbolToId) :=
  ⟨by decide, coin_ids_table_only ["Bitcoin", "Ethereum"] (by decide)⟩

/-- Claim C8: `CryptoAPI.get_crypto_data` never propagates an exception (the
embedding is a total function); whenever the request raises, the caller
receives the empty mapping, and `main`'s `if crypto_data:` branch
distinguishes failure from success exactly by the mapping being empty. -/
theorem get_crypto_data_failure_empty_and_caller_check (coins : List String)
    (net : HttpRequest → Except String PriceResponse) :
    (∀ e, net (mkPriceRequest coins) = .error e →
      (get_crypto_data coins net).mapping = []) ∧
    (main_shows_data (get_crypto_data coins net).mapping = true ↔
      (get_crypto_data coins net).mapping ≠ []) := by
  constructor
  · intro e h
    simp [get_crypto_data, h]
  · simp [main_shows_data]

/-- Witness for `get_crypto_data_failure_empty_and_caller_check` at a
concrete network failure. -/
theorem get_crypto_data_failure_empty_witness :
    (get_crypto_data ["bitcoin"] (fun _ => .error "no route to host")).mapping = [] ∧
    (main_shows_data
        (get_crypto_data ["bitcoin"] (fun _ => .error "no route to host")).mapping = true ↔
      (get_crypto_data ["bitcoin"] (fun _ => .error "no route to host")).mapping ≠ []) :=
  ⟨(get_crypto_data_failure_empty_and_caller_check ["bitcoin"] _).1
      "no route to host" rfl,
    (get_crypto_data_failure_empty_and_caller_check ["bitcoin"] _).2⟩

/-- Claim C9: `CryptoAPI.get_historical_data` never raises (the embedding is
total): when every step succeeds the frame has columns `timestamp`, `price`,
`volume` with rows built from the `prices` and `total_volumes` arrays, and
any failing step — the request or JSON decoding (`.error`), or the
`df['volume']` assignment on a length mismatch — yields `pd.DataFrame()`. -/
theorem get_historical_data_total_shape (resp : Except String MarketChart) :
    (∀ e, resp = .error e → get_historical_data resp = emptyDataFrame) ∧
    (∀ d, resp = .ok d → d.total_volumes.length ≠ d.prices.length →
      get_historical_data resp = emptyDataFrame) ∧
    (∀ d, resp = .ok d → d.total_volumes.length = d.prices.length →
      (get_historical_data resp).columns = ["timestamp", "price", "volume"] ∧
      (get_historical_data resp).rows =
        (d.prices.zip d.total_volumes).map
          (fun pv => [(pv.1.1 : ℚ), pv.1.2, pv.2.2])) := by
  refine ⟨?_, ?_, ?_⟩
  · intro e he
    rw [he]
    rfl
  · intro d hd hne
    rw [hd]
    simp [get_historical_data, hne]
  · intro d hd heq
    rw [hd]
    simp [get_historical_data, heq]

/-- Witness for `get_historical_data_total_shape` at the concrete chart
`chartEx`. -/
theorem get_historical_data_total_shape_witness :
    chartEx.total_volumes.length = chartEx.prices.length ∧
    ((get_historical_data (.ok chartEx)).columns = ["timestamp", "price", "volume"] ∧
      (get_historical_data (.ok chartEx)).rows =
        (chartEx.prices.zip chartEx.total_volumes).map
          (fun pv => [(pv.1.1 : ℚ), pv.1.2, pv.2.2])) :=
  ⟨rfl, (get_historical_data_total_shape (.ok chartEx)).2.2 chartEx rfl rfl⟩

/-- Claim C10: `format_currency` picks its rendering by the first matching
threshold in descending order — `≥ 1e9` divides by 1e9 with suffix `B`,
`[1e6, 1e9)` divides by 1e6 with suffix `M`, `[1e3, 1e6)` divides by 1e3
with suffix `K`, and everything below 1e3 renders plain with two decimals —
always prefixed with `$`. -/
theorem format_currency_thresholds (v : ℚ) :
    (1000000000 ≤ v → format_currency v = "$" ++ fmt2 (v / 1000000000) ++ "B") ∧
    (1000000 ≤ v → v < 1000000000 →
      format_currency v = "$" ++ fmt2 (v / 1000000) ++ "M") ∧
    (1000 ≤ v → v < 1000000 → format_currency v = "$" ++ fmt2 (v / 1000) ++ "K") ∧
    (v < 1000 → format_currency v = "$" ++ fmt2 v) := by
  refine ⟨?_, ?_, ?_, ?_⟩
  · intro h
    rw [format_currency, if_pos h]
  · intro h1 h2
    rw [format_currency, if_neg (not_le.mpr h2), if_pos h1]
  · intro h1 h2
    rw [format_currency, if_neg (not_le.mpr (lt_of_lt_of_le h2 (by norm_num))),
      if_neg (not_le.mpr h2), if_pos h1]
  · intro h
    rw [format_currency, if_neg (not_le.mpr (lt_of_lt_of_le h (by norm_num))),
      if_neg (not_le.mpr (lt_of_lt_of_le h (by norm_num))), if_neg (not_le.mpr h)]

/-- Witness for `format_currency_thresholds` in the `M` band. -/
theorem format_currency_thresholds_witness :
    (1000000 : ℚ) ≤ 2500000 ∧ (2500000 : ℚ) < 1000000000 ∧
    format_currency 2500000 = "$" ++ fmt2 ((2500000 : ℚ) / 1000000) ++ "M" :=
  ⟨by norm_num, by norm_num,
    (format_currency_thresholds 2500000).2.1 (by norm_num) (by norm_num)⟩

/-- Claim C1 (spec-modelled cache): for any starting cache state, any
non-empty symbol set and any fetcher, if the first `get` returns a mapping
(rather than raising) then two `get` calls whose second lands inside the TTL
window of the first issue at most one upstream request in total; moreover
when the first call did fetch and store, the second call is a cache hit that
returns the very mapping stored, contacting the Fetcher zero times. -/
theorem cacheGet_second_call_within_ttl (c : CacheState) (S : List String)
    (hS : S ≠ []) (fetch : List String → Except String AssetMapping)
    (t1 t2 : Nat) (h12 : t1 ≤ t2) (hTTL : t2 < t1 + CACHE_DURATION)
    (m1 : AssetMapping) (c1 : CacheState) (n1 : Nat)
    (h1 : cacheGet c t1 S fetch = (.ok m1, c1, n1)) :
    n1 + (cacheGet c1 t2 S fetch).2.2 ≤ 1 ∧
    (n1 = 1 → (cacheGet c1 t2 S fetch).1 = .ok m1 ∧
      (cacheGet c1 t2 S fetch).2.2 = 0) := by
  unfold cacheGet at h1
  cases hf : cacheFreshEntry c t1 (canonKey S) with
  | some m =>
    rw [hf] at h1
    simp only [Prod.mk.injEq, Except.ok.injEq] at h1
    obtain ⟨hm, hc, hn⟩ := h1
    subst hc
    subst hn
    refine ⟨?_, ?_⟩
    · have := cacheGet_count_le_one c t2 S fetch
      omega
    · intro habs
      exact absurd habs (by decide)
  | none =>
    rw [hf] at h1
    cases hfe : fetch S with
    | ok m =>
      rw [hfe] at h1
      simp only [Prod.mk.injEq, Except.ok.injEq] at h1
      obtain ⟨hm, hc, hn⟩ := h1
      subst hm
      subst hn
      have hhit : cacheFreshEntry c1 t2 (canonKey S) = some m := by
        rw [← hc]
        simp [cacheFreshEntry, List.lookup, hTTL]
      have h2call : cacheGet c1 t2 S fetch = (.ok m, c1, 0) := by
        unfold cacheGet
        rw [hhit]
      rw [h2call]
      exact ⟨by simp, fun _ => ⟨rfl, rfl⟩⟩
    | error e =>
      rw [hfe] at h1
      simp only [Prod.mk.injEq] at h1
      exact absurd h1.1 (by simp)

/-- Witness for `cacheGet_second_call_within_ttl`: an empty cache, the key
`["BTC"]`, a first call at time 0 that fetches and stores, and a second call
at time 30 — inside the 60-second TTL — that hits. -/
theorem cacheGet_second_call_within_ttl_witness :
    (["BTC"] : List String) ≠ [] ∧ (0 : Nat) ≤ 30 ∧ 30 < 0 + CACHE_DURATION ∧
    (1 + (cacheGet [(["BTC"], mapBTC, 0)] 30 ["BTC"] fetchBTC).2.2 ≤ 1 ∧
      ((1 : Nat) = 1 →
        (cacheGet [(["BTC"], mapBTC, 0)] 30 ["BTC"] fetchBTC).1 = .ok mapBTC ∧
        (cacheGet [(["BTC"], mapBTC, 0)] 30 ["BTC"] fetchBTC).2.2 = 0)) :=
  ⟨by decide, by decide, by decide,
    cacheGet_second_call_within_ttl [] ["BTC"] (by decide) fetchBTC 0 30
      (by decide) (by decide) mapBTC [(["BTC"], mapBTC, 0)] 1 rfl⟩

end CryptoDash
